import Mathlib

/-!
Shallow embedding of `src/ejercicio_1.py`, a mineral-transport domain model:
vehicles (three variants) with a validated capacity and a per-variant yield
formula, operators with a roster of associated vehicles, mineral loads with a
validated weight, transport operations with a process-wide id counter and a
finalized flag, and a warehouse aggregating finalized operations by mineral
type.

Conventions of the embedding:
- Python numbers are modelled as rationals (ℚ).
- Python `/` raises ZeroDivisionError on a zero divisor; it is modelled by
  `pydiv`, returning `Except String ℚ`.
- `round(x, 3)` is modelled by `round3` (round to 3 decimal places).
- A Python method that may raise is modelled as a function returning the
  post-state paired with `Except String Unit`; since every `raise` in the
  source happens before any assignment, the post-state on the error path is
  the unchanged input state.
- A Python dict (insertion ordered) is modelled as an association list
  `List (String × ℚ)` with `dictLookup` / `dictSet`.
- The class attribute `OperacionTransporte.contador` is modelled as an
  explicitly threaded `ℕ` counter.
-/

/-- Decidable equality on `Except`, so that concrete runs of the fallible
operations can be checked by `decide`. -/
instance {ε α : Type} [DecidableEq ε] [DecidableEq α] :
    DecidableEq (Except ε α) := fun a b =>
  match a, b with
  | .error e, .error f =>
      if h : e = f then .isTrue (by rw [h]) else .isFalse (by simp [h])
  | .error _, .ok _ => .isFalse (by simp)
  | .ok _, .error _ => .isFalse (by simp)
  | .ok x, .ok y =>
      if h : x = y then .isTrue (by rw [h]) else .isFalse (by simp [h])

/-- Python division on rationals: raises ZeroDivisionError when the divisor
is zero, otherwise returns the exact quotient. -/
def pydiv (a b : ℚ) : Except String ℚ :=
  if b = 0 then .error "division by zero" else .ok (a / b)

/-- Python `round(x, 3)`: round to 3 decimal places (to nearest; the
half-way tie direction is irrelevant to every value arising here). -/
def round3 (x : ℚ) : ℚ := (⌊x * 1000 + 1 / 2⌋ : ℚ) / 1000

/-- Variant-specific data of the three `Vehiculo` subclasses. -/
inductive VarianteVehiculo where
  | camionTolva (resistencia_chasis : ℚ)
  | volqueteArticulado (num_ejes : ℚ)
  | camionLigero (tipo_suspension : String)
deriving DecidableEq, Repr

/-- `Vehiculo`: identifier, validated capacity in tonnes, state string
(default "Disponible"), and the variant payload. -/
structure Vehiculo where
  id_vehiculo : String
  capacidad_tn : ℚ
  estado : String
  variante : VarianteVehiculo
deriving DecidableEq, Repr

/-- `Vehiculo.__init__`: assigning the capacity goes through the validated
setter, so a negative capacity aborts construction with a ValueError. -/
def mkVehiculo (variante : VarianteVehiculo) (id_vehiculo : String)
    (capacidad_tn : ℚ) : Except String Vehiculo :=
  if capacidad_tn < 0 then .error "Capacidad no puede ser negativa"
  else .ok ⟨id_vehiculo, capacidad_tn, "Disponible", variante⟩

/-- The `capacidad_tn` setter: rejects negative values; the `raise` happens
before the assignment, so on failure the stored capacity is unchanged. -/
def Vehiculo.set_capacidad_tn (v : Vehiculo) (valor : ℚ) :
    Vehiculo × Except String Unit :=
  if valor < 0 then (v, .error "Capacidad no puede ser negativa")
  else ({ v with capacidad_tn := valor }, .ok ())

/-- `calcular_rendimiento`, dispatched on the vehicle variant.  Each branch
computes `carga_frac = min(peso / capacidad_tn, 1.0)` (Python division, which
raises on a zero capacity) and then the variant formula, rounded to 3 decimal
places. -/
def Vehiculo.calcular_rendimiento (v : Vehiculo) (distancia peso : ℚ) :
    Except String ℚ :=
  match v.variante with
  | .camionTolva resistencia_chasis => do
      let q ← pydiv peso v.capacidad_tn
      let carga_frac := min q 1
      let r ← pydiv 1 (1 + carga_frac)
      pure (round3 (r * distancia * (resistencia_chasis / 100)))
  | .volqueteArticulado num_ejes => do
      let factor_ejes := 1 + (num_ejes - 2) * (5 / 100)
      let q ← pydiv peso v.capacidad_tn
      let carga_frac := min q 1
      pure (round3 (distancia * factor_ejes * (1 - (2 / 10) * carga_frac)))
  | .camionLigero _ => do
      let q ← pydiv peso v.capacidad_tn
      let carga_frac := min q 1
      let base := distancia * (6 / 10)
      let penalizacion := carga_frac * (8 / 10) * distancia
      let rendimiento := base - penalizacion
      pure (round3 (if rendimiento < 0 then 0 else rendimiento))

/-- Variant tag of the three `Operador` subclasses. -/
inductive VarianteOperador where
  | operadorCamion
  | supervisorTransporte
  | controladorAlmacen
deriving DecidableEq, Repr

/-- `Operador`: name, national id, license, insertion-ordered roster of
associated vehicles, and the variant tag. -/
structure Operador where
  nombre : String
  dni : String
  licencia : String
  vehiculos_asociados : List Vehiculo
  variante : VarianteOperador
deriving DecidableEq, Repr

/-- `Operador.__init__`: the roster starts empty. -/
def mkOperador (variante : VarianteOperador) (nombre dni licencia : String) :
    Operador :=
  ⟨nombre, dni, licencia, [], variante⟩

/-- `asociar_vehiculo`: append the vehicle to the roster unless it is already
present. -/
def Operador.asociar_vehiculo (o : Operador) (v : Vehiculo) : Operador :=
  if v ∈ o.vehiculos_asociados then o
  else { o with vehiculos_asociados := o.vehiculos_asociados ++ [v] }

/-- `calcular_bonos`: a fixed scalar per operator variant. -/
def Operador.calcular_bonos (o : Operador) : ℚ :=
  match o.variante with
  | .operadorCamion => 100
  | .supervisorTransporte => 200
  | .controladorAlmacen => 80

/-- `CargaMineral`: mineral type, humidity (unvalidated), validated weight. -/
structure CargaMineral where
  tipo : String
  humedad : ℚ
  peso : ℚ
deriving DecidableEq, Repr

/-- `CargaMineral.__init__`: the weight goes through the validated setter, so
a non-positive weight aborts construction with a ValueError. -/
def mkCargaMineral (tipo : String) (humedad peso : ℚ) :
    Except String CargaMineral :=
  if peso ≤ 0 then .error "Peso inválido" else .ok ⟨tipo, humedad, peso⟩

/-- The `peso` setter: rejects values ≤ 0; the `raise` happens before the
assignment, so on failure the stored weight is unchanged. -/
def CargaMineral.set_peso (c : CargaMineral) (val : ℚ) :
    CargaMineral × Except String Unit :=
  if val ≤ 0 then (c, .error "Peso inválido") else ({ c with peso := val }, .ok ())

/-- `OperacionTransporte`: id (drawn from the shared counter), referenced
operator and vehicle, owned load, distance, and the finalized flag. -/
structure OperacionTransporte where
  id_op : ℕ
  operador : Operador
  vehiculo : Vehiculo
  carga : CargaMineral
  distancia : ℚ
  finalizada : Bool
deriving DecidableEq, Repr

/-- `OperacionTransporte.__init__`: reads the shared counter as the new id,
then increments it; the operation starts with `finalizada = false`. -/
def mkOperacionTransporte (contador : ℕ) (operador : Operador)
    (vehiculo : Vehiculo) (carga : CargaMineral) (distancia : ℚ) :
    OperacionTransporte × ℕ :=
  (⟨contador, operador, vehiculo, carga, distancia, false⟩, contador + 1)

/-- `validar_peso`: raises a ValueError when the load weight exceeds the
vehicle capacity, otherwise does nothing; the operation itself is never
mutated. -/
def OperacionTransporte.validar_peso (op : OperacionTransporte) :
    OperacionTransporte × Except String Unit :=
  if op.carga.peso > op.vehiculo.capacidad_tn then
    (op, .error "Peso excede la capacidad del vehículo")
  else (op, .ok ())

/-- `finalizar`: set the finalized flag. -/
def OperacionTransporte.finalizar (op : OperacionTransporte) :
    OperacionTransporte :=
  { op with finalizada := true }

/-- Ordered-dict lookup on the association-list model. -/
def dictLookup : List (String × ℚ) → String → Option ℚ
  | [], _ => none
  | (k, v) :: rest, key => if k = key then some v else dictLookup rest key

/-- Ordered-dict assignment: overwrite in place when the key exists,
otherwise append at the end (Python dict insertion order). -/
def dictSet : List (String × ℚ) → String → ℚ → List (String × ℚ)
  | [], key, val => [(key, val)]
  | (k, v) :: rest, key, val =>
      if k = key then (key, val) :: rest else (k, v) :: dictSet rest key val

/-- `AlmacenMineral`: the inventory dict, keyed by mineral type. -/
structure AlmacenMineral where
  inventario : List (String × ℚ)
deriving DecidableEq, Repr

/-- `registrar_ingreso`: raises a ValueError for a non-finalized operation
(before touching the inventory); otherwise initializes the type's bucket to
0.0 when absent and adds the load weight to it. -/
def AlmacenMineral.registrar_ingreso (a : AlmacenMineral)
    (op : OperacionTransporte) : AlmacenMineral × Except String Unit :=
  if op.finalizada = false then
    (a, .error "Solo operaciones finalizadas pueden registrarse")
  else
    let tipo := op.carga.tipo
    let peso := op.carga.peso
    let inv0 :=
      if dictLookup a.inventario tipo = none then dictSet a.inventario tipo 0
      else a.inventario
    let actual := (dictLookup inv0 tipo).getD 0
    (⟨dictSet inv0 tipo (actual + peso)⟩, .ok ())

/-- `calcular_stock_total`: sum of the inventory dict's values. -/
def AlmacenMineral.calcular_stock_total (a : AlmacenMineral) : ℚ :=
  (a.inventario.map Prod.snd).sum

/-- Inputs of one `OperacionTransporte` construction (everything except the
counter-drawn id). -/
structure EntradaOperacion where
  operador : Operador
  vehiculo : Vehiculo
  carga : CargaMineral
  distancia : ℚ

/-- Construct a sequence of operations in order, threading the shared
counter; returns the operations and the final counter value. -/
def construirOperaciones (contador : ℕ) :
    List EntradaOperacion → List OperacionTransporte × ℕ
  | [] => ([], contador)
  | e :: rest =>
      let p := mkOperacionTransporte contador e.operador e.vehiculo e.carga
        e.distancia
      let q := construirOperaciones p.2 rest
      (p.1 :: q.1, q.2)

/-! Concrete objects mirroring the demonstration scenario in the source. -/

/-- The tipper truck of the scenario: CamionTolva("T001", 20, 85). -/
def vTolva : Vehiculo := ⟨"T001", 20, "Disponible", .camionTolva 85⟩

/-- The articulated dumper of the scenario: VolqueteArticulado("V010", 35, 4). -/
def vArt : Vehiculo := ⟨"V010", 35, "Disponible", .volqueteArticulado 4⟩

/-- The light truck of the scenario: CamionLigero("L100", 5, "Hidráulica"). -/
def vLigero : Vehiculo := ⟨"L100", 5, "Disponible", .camionLigero "Hidráulica"⟩

/-- Operator of the scenario: OperadorCamion("Juan", "123", "AII"). -/
def operJuan : Operador := mkOperador .operadorCamion "Juan" "123" "AII"

/-- Operator of the scenario: SupervisorTransporte("María", "456", "SUP"). -/
def operMaria : Operador := mkOperador .supervisorTransporte "María" "456" "SUP"

/-- Load of the scenario: CargaMineral("Cobre", 2.5, 15). -/
def cargaCobre : CargaMineral := ⟨"Cobre", 5 / 2, 15⟩

/-- Load of the scenario: CargaMineral("Plata", 1.0, 25). -/
def cargaPlata : CargaMineral := ⟨"Plata", 1, 25⟩

/-- Load of the scenario: CargaMineral("Oro", 0.8, 6). -/
def cargaOro : CargaMineral := ⟨"Oro", 8 / 10, 6⟩

/-- First operation of the scenario (id 1): Juan, tipper, copper, 12 km. -/
def oper1 : OperacionTransporte :=
  (mkOperacionTransporte 1 operJuan vTolva cargaCobre 12).1

/-- Second operation of the scenario (id 2): María, dumper, silver, 40 km. -/
def oper2 : OperacionTransporte :=
  (mkOperacionTransporte 2 operMaria vArt cargaPlata 40).1

/-- Third operation of the scenario (id 3): Juan, light truck, gold, 8 km;
its weight 6 exceeds the light truck capacity 5. -/
def oper3 : OperacionTransporte :=
  (mkOperacionTransporte 3 operJuan vLigero cargaOro 8).1

/-- The warehouse after ingesting the two finalized scenario operations. -/
def almacenFinal : AlmacenMineral :=
  ((((AlmacenMineral.mk []).registrar_ingreso oper1.finalizar).1).registrar_ingreso
    oper2.finalizar).1

/-! Claim theorems. -/

/-- Claim C1: `validar_peso` succeeds exactly when the load weight is at most
the vehicle capacity; otherwise it raises the capacity error; in both cases
the operation (all of its fields) is unchanged. -/
theorem validar_peso_spec (op : OperacionTransporte) :
    (op.validar_peso.2 = .ok () ↔ op.carga.peso ≤ op.vehiculo.capacidad_tn) ∧
    (op.vehiculo.capacidad_tn < op.carga.peso →
      op.validar_peso.2 = .error "Peso excede la capacidad del vehículo") ∧
    op.validar_peso.1 = op := by
  unfold OperacionTransporte.validar_peso
  split_ifs with h
  · simp [h, not_le.mpr h]
  · simp [h, not_lt.mp h]

/-- Witness for C1: operation 1 (weight 15 ≤ capacity 20) validates, and
operation 3 (weight 6 > capacity 5) raises with the operation unchanged. -/
theorem validar_peso_spec_witness :
    (oper1.validar_peso.2 = .ok () ↔
      oper1.carga.peso ≤ oper1.vehiculo.capacidad_tn) ∧
    oper3.vehiculo.capacidad_tn < oper3.carga.peso ∧
    oper3.validar_peso.2 = .error "Peso excede la capacidad del vehículo" ∧
    oper3.validar_peso.1 = oper3 :=
  ⟨(validar_peso_spec oper1).1,
   by norm_num [oper3, mkOperacionTransporte, cargaOro, vLigero],
   (validar_peso_spec oper3).2.1
     (by norm_num [oper3, mkOperacionTransporte, cargaOro, vLigero]),
   (validar_peso_spec oper3).2.2⟩

/-- Looking up the key just written by `dictSet` returns the written value. -/
theorem dictLookup_dictSet_self (d : List (String × ℚ)) (k : String) (v : ℚ) :
    dictLookup (dictSet d k v) k = some v := by
  induction d with
  | nil => simp [dictSet, dictLookup]
  | cons p rest ih =>
      obtain ⟨k', v'⟩ := p
      by_cases h : k' = k <;> simp [dictSet, dictLookup, h, ih]

/-- Claim C2: ingesting a non-finalized operation raises the state error and
leaves the inventory unchanged; ingesting a finalized operation succeeds and
adds the load weight to the bucket of the load type, with a zero initial
value when the key was absent. -/
theorem registrar_ingreso_spec (a : AlmacenMineral) (op : OperacionTransporte) :
    (op.finalizada = false →
      a.registrar_ingreso op =
        (a, .error "Solo operaciones finalizadas pueden registrarse")) ∧
    (op.finalizada = true →
      (a.registrar_ingreso op).2 = .ok () ∧
      dictLookup (a.registrar_ingreso op).1.inventario op.carga.tipo =
        some ((dictLookup a.inventario op.carga.tipo).getD 0 +
          op.carga.peso)) := by
  unfold AlmacenMineral.registrar_ingreso
  cases hf : op.finalizada
  · simp
  · simp only [Bool.true_eq_false, false_implies, true_and, if_neg,
      Bool.false_eq_true, not_false_eq_true, reduceIte, true_implies]
    cases hl : dictLookup a.inventario op.carga.tipo <;>
      simp [hl, dictLookup_dictSet_self]

/-- Witness for C2: ingesting the fresh (non-finalized) operation 1 into an
empty warehouse fails and leaves it empty; ingesting it finalized succeeds
and puts 15 into the fresh "Cobre" bucket. -/
theorem registrar_ingreso_spec_witness :
    oper1.finalizada = false ∧
    (AlmacenMineral.mk []).registrar_ingreso oper1 =
      (AlmacenMineral.mk [],
        .error "Solo operaciones finalizadas pueden registrarse") ∧
    oper1.finalizar.finalizada = true ∧
    ((AlmacenMineral.mk []).registrar_ingreso oper1.finalizar).2 = .ok () ∧
    dictLookup ((AlmacenMineral.mk []).registrar_ingreso
      oper1.finalizar).1.inventario "Cobre" = some 15 := by
  have h0 : oper1.finalizada = false := rfl
  have h1 : oper1.finalizar.finalizada = true := rfl
  have h2 := (registrar_ingreso_spec (AlmacenMineral.mk []) oper1).1 h0
  have h3 := (registrar_ingreso_spec (AlmacenMineral.mk [])
    oper1.finalizar).2 h1
  refine ⟨h0, h2, h1, h3.1, ?_⟩
  have h4 := h3.2
  simp only [oper1, OperacionTransporte.finalizar, mkOperacionTransporte,
    cargaCobre, dictLookup] at h4 ⊢
  rw [h4]
  norm_num

/-- Claim C3: `calcular_stock_total` is the sum of the inventory values and
is 0 on an empty warehouse; after ingesting the finalized scenario
operations (Cobre 15 and Plata 25) into a fresh warehouse the inventory is
exactly that mapping and the total stock is 40. -/
theorem calcular_stock_total_spec :
    (∀ a : AlmacenMineral, a.calcular_stock_total =
      (a.inventario.map Prod.snd).sum) ∧
    (AlmacenMineral.mk []).calcular_stock_total = 0 ∧
    almacenFinal.inventario = [("Cobre", 15), ("Plata", 25)] ∧
    almacenFinal.calcular_stock_total = 40 := by
  have hne : ("Cobre" : String) ≠ "Plata" := by decide
  have hinv : almacenFinal.inventario = [("Cobre", 15), ("Plata", 25)] := by
    norm_num [almacenFinal, AlmacenMineral.registrar_ingreso, oper1, oper2,
      OperacionTransporte.finalizar, mkOperacionTransporte, cargaCobre,
      cargaPlata, dictLookup, dictSet, hne, hne.symm]
  refine ⟨fun a => rfl, rfl, hinv, ?_⟩
  rw [AlmacenMineral.calcular_stock_total, hinv]
  norm_num

/-- Claim C4: for a tipper with positive capacity and non-negative distance
and weight, the yield is `(1 / (1 + f)) * distance * (resistance / 100)`
rounded to 3 decimals, with `f = min(weight / capacity, 1)`; the scenario
tipper (capacity 20, resistance 85, distance 12, weight 15) has load
fraction 3/4 and yield 5.829. -/
theorem camionTolva_rendimiento (idv est : String) (res cap dist peso : ℚ)
    (hcap : 0 < cap) (hdist : 0 ≤ dist) (hpeso : 0 ≤ peso) :
    (Vehiculo.mk idv cap est (.camionTolva res)).calcular_rendimiento
        dist peso =
      .ok (round3 ((1 / (1 + min (peso / cap) 1)) * dist * (res / 100))) ∧
    min ((15:ℚ) / 20) 1 = 3 / 4 ∧
    vTolva.calcular_rendimiento 12 15 = .ok (5829 / 1000) := by
  refine ⟨?_, by norm_num [min_def], ?_⟩
  · have hc : cap ≠ 0 := ne_of_gt hcap
    have hf : (0:ℚ) ≤ min (peso / cap) 1 :=
      le_min (div_nonneg hpeso hcap.le) one_pos.le
    have h1 : (1 : ℚ) + min (peso / cap) 1 ≠ 0 := by positivity
    simp [Vehiculo.calcular_rendimiento, pydiv, hc, h1, Except.bind, bind,
      pure, Except.pure, one_div]
  · norm_num [Vehiculo.calcular_rendimiento, vTolva, pydiv, round3, min_def,
      Except.bind, bind, Except.map, pure, Except.pure]

/-- Witness for C4: the scenario tipper instantiates the formula. -/
theorem camionTolva_rendimiento_witness :
    (0:ℚ) < 20 ∧
    vTolva.calcular_rendimiento 12 15 =
      .ok (round3 ((1 / (1 + min ((15:ℚ) / 20) 1)) * 12 * (85 / 100))) :=
  ⟨by norm_num,
   (camionTolva_rendimiento "T001" "Disponible" 85 20 12 15 (by norm_num)
     (by norm_num) (by norm_num)).1⟩

/-- Claim C5: for an articulated dumper with positive capacity and
non-negative distance and weight, the yield is
`distance * (1 + (axles - 2) * 0.05) * (1 - 0.2 * f)` rounded to 3 decimals;
the scenario dumper (capacity 35, 4 axles, distance 40, weight 25) has axle
factor 11/10, load fraction 5/7, and yield 37.714. -/
theorem volqueteArticulado_rendimiento (idv est : String)
    (ejes cap dist peso : ℚ) (hcap : 0 < cap) (hdist : 0 ≤ dist)
    (hpeso : 0 ≤ peso) :
    (Vehiculo.mk idv cap est (.volqueteArticulado ejes)).calcular_rendimiento
        dist peso =
      .ok (round3 (dist * (1 + (ejes - 2) * (5 / 100)) *
        (1 - (2 / 10) * min (peso / cap) 1))) ∧
    (1 + ((4:ℚ) - 2) * (5 / 100)) = 11 / 10 ∧
    min ((25:ℚ) / 35) 1 = 5 / 7 ∧
    vArt.calcular_rendimiento 40 25 = .ok (18857 / 500) := by
  refine ⟨?_, by norm_num, by norm_num [min_def], ?_⟩
  · have hc : cap ≠ 0 := ne_of_gt hcap
    simp [Vehiculo.calcular_rendimiento, pydiv, hc, Except.bind, bind,
      pure, Except.pure]
  · norm_num [Vehiculo.calcular_rendimiento, vArt, pydiv, round3, min_def,
      Except.bind, bind, Except.map, pure, Except.pure]

/-- Witness for C5: the scenario dumper instantiates the formula. -/
theorem volqueteArticulado_rendimiento_witness :
    (0:ℚ) < 35 ∧
    vArt.calcular_rendimiento 40 25 =
      .ok (round3 (40 * (1 + ((4:ℚ) - 2) * (5 / 100)) *
        (1 - (2 / 10) * min ((25:ℚ) / 35) 1))) :=
  ⟨by norm_num,
   (volqueteArticulado_rendimiento "V010" "Disponible" 4 35 40 25 (by norm_num)
     (by norm_num) (by norm_num)).1⟩

/-- Claim C6: vehicle construction and the capacity setter accept exactly the
non-negative capacities (no upper bound); a rejected assignment raises the
validation error and leaves the stored capacity unchanged. -/
theorem capacidad_validacion (variante : VarianteVehiculo) (idv : String)
    (c : ℚ) (v : Vehiculo) :
    ((mkVehiculo variante idv c).isOk = true ↔ 0 ≤ c) ∧
    (0 ≤ c → mkVehiculo variante idv c =
      .ok ⟨idv, c, "Disponible", variante⟩) ∧
    (c < 0 → mkVehiculo variante idv c =
      .error "Capacidad no puede ser negativa") ∧
    ((v.set_capacidad_tn c).2 = .ok () ↔ 0 ≤ c) ∧
    (0 ≤ c → (v.set_capacidad_tn c).1 = { v with capacidad_tn := c }) ∧
    (c < 0 → v.set_capacidad_tn c =
      (v, .error "Capacidad no puede ser negativa")) := by
  unfold mkVehiculo Vehiculo.set_capacidad_tn
  split_ifs with h
  · simp [Except.isOk, Except.toBool, h, not_le.mpr h, le_of_not_lt]
  · simp [Except.isOk, Except.toBool, h, not_lt.mp h]

/-- Witness for C6: capacity 20 is accepted, capacity -3 is rejected by both
the constructor and the setter, and the rejected setter call leaves the
scenario tipper unchanged. -/
theorem capacidad_validacion_witness :
    (0:ℚ) ≤ 20 ∧ mkVehiculo (.camionTolva 85) "T001" 20 =
      .ok ⟨"T001", 20, "Disponible", .camionTolva 85⟩ ∧
    (-3:ℚ) < 0 ∧ mkVehiculo (.camionTolva 85) "T001" (-3) =
      .error "Capacidad no puede ser negativa" ∧
    (vTolva.set_capacidad_tn (-3)).1 = vTolva :=
  ⟨by norm_num,
   (capacidad_validacion (.camionTolva 85) "T001" 20 vTolva).2.1 (by norm_num),
   by norm_num,
   (capacidad_validacion (.camionTolva 85) "T001" (-3) vTolva).2.2.1
     (by norm_num),
   by rw [(capacidad_validacion (.camionTolva 85) "T001" (-3) vTolva).2.2.2.2.2
      (by norm_num)]⟩

/-- Claim C7: load construction and the weight setter accept exactly the
strictly positive weights; a rejected assignment raises the validation error
and leaves the stored weight unchanged. -/
theorem peso_validacion (tipo : String) (hum w : ℚ) (c : CargaMineral) :
    ((mkCargaMineral tipo hum w).isOk = true ↔ 0 < w) ∧
    (0 < w → mkCargaMineral tipo hum w = .ok ⟨tipo, hum, w⟩) ∧
    (w ≤ 0 → mkCargaMineral tipo hum w = .error "Peso inválido") ∧
    ((c.set_peso w).2 = .ok () ↔ 0 < w) ∧
    (0 < w → (c.set_peso w).1 = { c with peso := w }) ∧
    (w ≤ 0 → c.set_peso w = (c, .error "Peso inválido")) := by
  unfold mkCargaMineral CargaMineral.set_peso
  split_ifs with h
  · simp [Except.isOk, Except.toBool, h, not_lt.mpr h]
  · simp [Except.isOk, Except.toBool, h, not_le.mp h]

/-- Witness for C7: weight 15 is accepted, weight 0 is rejected by both the
constructor and the setter, and the rejected setter call leaves the copper
load unchanged. -/
theorem peso_validacion_witness :
    (0:ℚ) < 15 ∧ mkCargaMineral "Cobre" (5/2) 15 = .ok cargaCobre ∧
    (0:ℚ) ≥ 0 ∧ mkCargaMineral "Cobre" (5/2) 0 = .error "Peso inválido" ∧
    (cargaCobre.set_peso 0).1 = cargaCobre :=
  ⟨by norm_num,
   (peso_validacion "Cobre" (5/2) 15 cargaCobre).2.1 (by norm_num),
   by norm_num,
   (peso_validacion "Cobre" (5/2) 0 cargaCobre).2.2.1 (by norm_num),
   by rw [(peso_validacion "Cobre" (5/2) 0 cargaCobre).2.2.2.2.2 (by norm_num)]⟩

/-- Auxiliary for C8: constructing operations in sequence from any counter
value assigns the ids counter, counter + 1, ..., and leaves the counter
advanced by the number of constructions. -/
theorem construirOperaciones_ids (entradas : List EntradaOperacion) :
    ∀ contador : ℕ,
    (construirOperaciones contador entradas).1.map OperacionTransporte.id_op =
      List.range' contador entradas.length ∧
    (construirOperaciones contador entradas).2 =
      contador + entradas.length := by
  induction entradas with
  | nil => intro c; simp [construirOperaciones]
  | cons e rest ih =>
      intro c
      have h := ih (c + 1)
      simp [construirOperaciones, mkOperacionTransporte, List.range'_succ,
        h.1, h.2]
      omega

/-- Claim C8: starting the process-wide counter at 1, any sequence of
constructions is assigned the ids 1, 2, 3, ... in construction order, the
counter advances by one per construction, and the ids are strictly
increasing and unique. -/
theorem id_op_secuencial (entradas : List EntradaOperacion) :
    (construirOperaciones 1 entradas).1.map OperacionTransporte.id_op =
      List.range' 1 entradas.length ∧
    (construirOperaciones 1 entradas).2 = 1 + entradas.length ∧
    ((construirOperaciones 1 entradas).1.map
      OperacionTransporte.id_op).Pairwise (· < ·) ∧
    ((construirOperaciones 1 entradas).1.map
      OperacionTransporte.id_op).Nodup := by
  have h := construirOperaciones_ids entradas 1
  refine ⟨h.1, h.2, ?_, ?_⟩
  · rw [h.1]; exact List.pairwise_lt_range' 1 entradas.length
  · rw [h.1]; exact List.nodup_range' 1 entradas.length

/-- Claim C9: `asociar_vehiculo` is an idempotent, order-preserving set-add:
a no-op when the vehicle is already on the roster, an append at the end
otherwise, and it keeps a duplicate-free roster duplicate-free. -/
theorem asociar_vehiculo_spec (o : Operador) (v : Vehiculo) :
    (v ∈ o.vehiculos_asociados → o.asociar_vehiculo v = o) ∧
    (v ∉ o.vehiculos_asociados →
      (o.asociar_vehiculo v).vehiculos_asociados =
        o.vehiculos_asociados ++ [v]) ∧
    (o.asociar_vehiculo v).asociar_vehiculo v = o.asociar_vehiculo v ∧
    (o.vehiculos_asociados.Nodup →
      (o.asociar_vehiculo v).vehiculos_asociados.Nodup) := by
  unfold Operador.asociar_vehiculo
  by_cases h : v ∈ o.vehiculos_asociados
  · simp [h]
  · simp [h, List.nodup_append]

/-- Witness for C9: associating the tipper to Juan (empty roster) appends
it; associating it a second time is a no-op and keeps the roster
duplicate-free. -/
theorem asociar_vehiculo_spec_witness :
    (vTolva ∉ operJuan.vehiculos_asociados ∧
      (operJuan.asociar_vehiculo vTolva).vehiculos_asociados = [vTolva]) ∧
    (vTolva ∈ (operJuan.asociar_vehiculo vTolva).vehiculos_asociados ∧
      (operJuan.asociar_vehiculo vTolva).asociar_vehiculo vTolva =
        operJuan.asociar_vehiculo vTolva) ∧
    (operJuan.asociar_vehiculo vTolva).vehiculos_asociados.Nodup := by
  have h0 : vTolva ∉ operJuan.vehiculos_asociados := by
    simp [operJuan, mkOperador]
  have h1 := (asociar_vehiculo_spec operJuan vTolva).2.1 h0
  have h2 : vTolva ∈ (operJuan.asociar_vehiculo vTolva).vehiculos_asociados := by
    rw [h1]; simp [operJuan, mkOperador]
  have h3 := (asociar_vehiculo_spec (operJuan.asociar_vehiculo vTolva)
    vTolva).1 h2
  have h4 := (asociar_vehiculo_spec operJuan vTolva).2.2.2
    (by simp [operJuan, mkOperador])
  refine ⟨⟨h0, ?_⟩, ⟨h2, h3⟩, h4⟩
  rw [h1]; simp [operJuan, mkOperador]

/-- Claim C10: the capacity validation admits a capacity of exactly 0, and
on such a vehicle every variant's `calcular_rendimiento` raises the
division-by-zero error for every distance and weight instead of returning a
number. -/
theorem rendimiento_capacidad_cero (variante : VarianteVehiculo)
    (idv est : String) (dist peso : ℚ) :
    mkVehiculo variante idv 0 = .ok ⟨idv, 0, "Disponible", variante⟩ ∧
    (Vehiculo.mk idv 0 est variante).calcular_rendimiento dist peso =
      .error "division by zero" := by
  constructor
  · simp [mkVehiculo]
  · cases variante <;>
      simp [Vehiculo.calcular_rendimiento, pydiv, Except.bind, bind]
